import Mathlib

/-!
# Verification of the armer motion-execution and collision-safety engine

Shallow embedding of the parts of `csiro-robotics/armer` relevant to the
frozen claims:

* `src/armer/trajectory.py` — `TrajectoryExecutor` (`is_finished`, `step`,
  `abort`, `is_succeeded`);
* `src/armer/robots/ROSRobot.py` — `general_executor`,
  `pose_within_workspace`, `check_singularity`,
  `trajectory_collision_checker`, `set_safe_state`,
  `remove_collision_obj_cb`, `query_kd_nn_collision_tree` /
  `closest_dist_query_pose_based`, and the motion command handlers
  (`velocity_cb`, `joint_velocity_cb`, `servo_cb`, `pose_cb`,
  `joint_pose_cb`, `named_pose_cb`, `home_cb`).

Machine floats are modelled by `ℚ`; joint vectors by `List ℚ`.  External
collaborators (kinematics, transport, file system) are abstracted into
explicit environment records, mirroring the spec's "consumed capabilities"
boundary.  Stateful Python methods become functions returning a pair of
result and updated state.
-/

namespace Armer

/-- A joint vector (numpy 1-d array of floats). -/
abbrev JointVec := List ℚ

/-- Componentwise `np.fabs(a - b) < cutoff` followed by `np.all`
(`trajectory.py` line 96).  Arrays of equal length are assumed, as in the
source (numpy would raise on a shape mismatch). -/
def withinCutoff (a b : JointVec) (cutoff : ℚ) : Bool :=
  (List.zipWith (fun x y => decide (|x - y| < cutoff)) a b).all id

/-- `roboticstoolbox.tools.trajectory.Trajectory` as consumed by
`TrajectoryExecutor`: sample list `s`, sample-velocity list `sd`, the flag
`istime`, and `t`, which holds the total duration when `istime` and the
sample count otherwise (spec §3: "plus either a sample count or a total
duration"). -/
structure Traj where
  istime : Bool
  s : List JointVec
  sd : List JointVec
  t : ℚ
deriving Repr, DecidableEq

/-- The mutable state of a `TrajectoryExecutor`
(`trajectory.py`, `__init__` lines 17–29): the owning robot's joint count
`n`, the consumed trajectory, the progress counter `time_step`, the last
observed joint position, and the `is_aborted` / `_finished` / `_success`
flags.  The `cartesian_ee_vel_vect` list is logging only and is omitted. -/
structure Exec where
  n : Nat
  traj : Traj
  time_step : ℚ
  last_jp : JointVec
  is_aborted : Bool
  finished : Bool
  success : Bool
deriving Repr, DecidableEq

/-- `TrajectoryExecutor.__init__(robot, traj)` (`trajectory.py` 15–35). -/
def Exec.init (n : Nat) (traj : Traj) : Exec :=
  { n := n
    traj := traj
    time_step := 0
    last_jp := List.replicate n 0
    is_aborted := false
    finished := false
    success := false }

/-- `TrajectoryExecutor.is_finished(cutoff=0.01)` (`trajectory.py` 92–110).
The live robot joint state `q` (`self.robot.q`) is passed explicitly.
Returns the boolean result together with the updated executor state
(the method mutates `_finished` / `_success`). -/
def Exec.isFinished (q : JointVec) (cutoff : ℚ) (e : Exec) : Bool × Exec :=
  if e.finished then (true, e)
  else
    -- `len(self.traj.s) < 2 or np.all(np.fabs(self.traj.s[-1] - self.robot.q) < cutoff)`
    let e1 :=
      if e.traj.s.length < 2 || withinCutoff (e.traj.s.getLastD []) q cutoff then
        { e with finished := true, success := true }
      else e
    -- `if (self.time_step) >= self.traj.t - (1 if not self.traj.istime else 0)`
    let e2 :=
      if e.time_step ≥ e.traj.t - (if e.traj.istime then 0 else 1) then
        { e1 with finished := true, success := true }
      else e1
    (e2.finished, e2)

/-- `TrajectoryExecutor.is_succeeded()` (`trajectory.py` 112–113). -/
def Exec.isSucceeded (e : Exec) : Bool := e.success

/-- `TrajectoryExecutor.abort()` (`trajectory.py` 88–90). -/
def Exec.abort (e : Exec) : Exec :=
  { e with finished := true, success := false }

/-- Linear interpolation between two sample rows:
`a + f * (b - a)` componentwise. -/
def lerpRow (a b : JointVec) (f : ℚ) : JointVec :=
  List.zipWith (fun u v => u + f * (v - u)) a b

/-- `scipy.interpolate.interp1d(linspace(0,1,len(samples)), samples)`
evaluated at `x` (`trajectory.py` 32–35): piecewise-linear interpolation
over the uniform grid `0, 1/(m-1), …, 1`.  The segment index is clamped to
the grid; scipy instead raises outside `[0, 1]`, a domain the executor
never leaves while the trajectory is in progress. -/
def interp1d (samples : List JointVec) (x : ℚ) : JointVec :=
  let m := samples.length
  let p := x * ((m : ℚ) - 1)
  let i := min (max p.floor 0).toNat (m - 2)
  lerpRow (samples.getD i []) (samples.getD (i + 1) []) (p - (i : ℚ))

/-- `np.max(np.fabs(l))` with 0 for the empty array (numpy would raise
there; `erro_jp` is never empty for a real robot). -/
def maxAbs (l : List ℚ) : ℚ :=
  l.foldr (fun a m => max |a| m) 0

/-- The live robot state read by `TrajectoryExecutor.step`
(`trajectory.py` 43–47): `self.robot.q`,
`self.robot.state.joint_velocities` and `self.robot.state.joint_poses`. -/
structure StepEnv where
  q : JointVec
  joint_velocities : JointVec
  joint_poses : JointVec
deriving Repr, DecidableEq

/-- `TrajectoryExecutor.step(dt)` (`trajectory.py` 37–86).  Returns the
commanded joint-velocity vector and the updated executor state.  The
Jacobian/end-effector-speed computation of lines 43–51 feeds only the
logging list and is omitted. -/
def Exec.step (dt : ℚ) (env : StepEnv) (e : Exec) : JointVec × Exec :=
  let r := e.isFinished env.q (1 / 100)
  if r.1 then (List.replicate r.2.n 0, r.2)
  else
    let e1 := r.2
    let current_jv := env.joint_velocities
    let current_jp := env.joint_poses
    let req_jp :=
      if e1.traj.istime then interp1d e1.traj.s (e1.time_step / e1.traj.t)
      else e1.traj.s.getD e1.time_step.floor.toNat []
    let req_jv :=
      if e1.traj.istime then interp1d e1.traj.sd (e1.time_step / e1.traj.t)
      else e1.traj.sd.getD e1.time_step.floor.toNat []
    let erro_jv := List.zipWith (fun a b => a - b) req_jv current_jv
    let erro_jp := List.zipWith (fun a b => a - b) req_jp current_jp
    let e2 := { e1 with last_jp := current_jp }
    let corr_jv := List.zipWith (fun a b => a + b) current_jv erro_jv
    let e3 :=
      if maxAbs erro_jp > 1 / 2 then { e2 with finished := true } else e2
    let e4 :=
      { e3 with time_step := e3.time_step + (if e3.traj.istime then dt else 1) }
    (corr_jv, e4)

/-- An operation performed on a `TrajectoryExecutor` after construction:
a control tick (`step`), an abort, or a finish poll (`is_finished`). -/
inductive ExOp where
  | opStep (dt : ℚ) (env : StepEnv)
  | opAbort
  | opIsFinished (cutoff : ℚ) (q : JointVec)
deriving Repr

/-- Apply one executor operation, keeping only the state. -/
def applyOp (e : Exec) : ExOp → Exec
  | .opStep dt env => (e.step dt env).2
  | .opAbort => e.abort
  | .opIsFinished c q => (e.isFinished q c).2

/-- Run a sequence of executor operations. -/
def runOps (e : Exec) (ops : List ExOp) : Exec :=
  ops.foldl applyOp e

end Armer

namespace Armer

/-! ## Basic executor lemmas -/

/-- `is_finished` on an already-finished executor returns `True` at once and
leaves the state untouched (`trajectory.py` 93–94). -/
theorem isFinished_of_finished (e : Exec) (q : JointVec) (c : ℚ)
    (h : e.finished = true) : e.isFinished q c = (true, e) := by
  simp [Exec.isFinished, h]

/-- The result of `is_finished` equals the `_finished` flag of the
post-state: every `True` return path either saw the flag or set it. -/
theorem isFinished_flag (e : Exec) (q : JointVec) (c : ℚ) :
    (e.isFinished q c).2.finished = (e.isFinished q c).1 := by
  simp only [Exec.isFinished]
  split_ifs with h <;> simp [h]

/-- `is_finished` never changes the joint count `n`. -/
theorem isFinished_n (e : Exec) (q : JointVec) (c : ℚ) :
    (e.isFinished q c).2.n = e.n := by
  simp only [Exec.isFinished]
  split_ifs <;> rfl

/-- `step` never changes the joint count `n`. -/
theorem step_n (e : Exec) (dt : ℚ) (env : StepEnv) :
    (e.step dt env).2.n = e.n := by
  simp only [Exec.step]
  split_ifs <;> simp [isFinished_n]

/-- `step` on a finished executor returns the zero vector of length
`robot.n` and leaves the state untouched (`trajectory.py` 39–40). -/
theorem step_of_finished (e : Exec) (dt : ℚ) (env : StepEnv)
    (h : e.finished = true) :
    e.step dt env = (List.replicate e.n 0, e) := by
  unfold Exec.step
  rw [isFinished_of_finished e env.q (1/100) h]
  simp

/-- No executor operation lowers `_finished` back to `false`. -/
theorem applyOp_preserves_finished (e : Exec) (op : ExOp)
    (h : e.finished = true) : (applyOp e op).finished = true := by
  cases op with
  | opStep dt env => simp [applyOp, step_of_finished e dt env h, h]
  | opAbort => simp [applyOp, Exec.abort]
  | opIsFinished c q => simp [applyOp, isFinished_of_finished e q c h, h]

/-- Executor operations never change the joint count `n`. -/
theorem applyOp_n (e : Exec) (op : ExOp) : (applyOp e op).n = e.n := by
  cases op with
  | opStep dt env => simp [applyOp, step_n]
  | opAbort => rfl
  | opIsFinished c q => simp [applyOp, isFinished_n]

/-- `runOps` keeps a raised `_finished` flag raised. -/
theorem runOps_preserves_finished (ops : List ExOp) (e : Exec)
    (h : e.finished = true) : (runOps e ops).finished = true := by
  induction ops generalizing e with
  | nil => simpa [runOps]
  | cons op rest ih =>
      simpa [runOps, List.foldl_cons] using
        ih (applyOp e op) (applyOp_preserves_finished e op h)

/-- `runOps` keeps the joint count `n`. -/
theorem runOps_n (ops : List ExOp) (e : Exec) : (runOps e ops).n = e.n := by
  induction ops generalizing e with
  | nil => rfl
  | cons op rest ih =>
      simpa [runOps, List.foldl_cons, applyOp_n] using
        (ih (applyOp e op)).trans (applyOp_n e op)

end Armer

namespace Armer

/-! ## Claim C1 -/

/-- **C1.** For a `TrajectoryExecutor` not already marked finished,
`is_finished(cutoff)` returns `True` when the trajectory has fewer than
2 samples, or when every component of the final sample's position is
within `cutoff` of the robot's actual current position, or when the
progress counter has reached/exceeded the trajectory's total duration
(`istime`) or sample count (both held by `traj.t`); and in the proximity
and timeout cases the `_success` flag is set, so a subsequent
`is_succeeded()` returns `True`. -/
theorem isFinished_success_cases (e : Exec) (q : JointVec) (cutoff : ℚ)
    (hnf : e.finished = false)
    (hcase : e.traj.s.length < 2
      ∨ withinCutoff (e.traj.s.getLastD []) q cutoff = true
      ∨ e.time_step ≥ e.traj.t) :
    (e.isFinished q cutoff).1 = true ∧
      ((withinCutoff (e.traj.s.getLastD []) q cutoff = true ∨
          e.time_step ≥ e.traj.t) →
        (e.isFinished q cutoff).2.isSucceeded = true) := by
  have hsub : e.traj.t - (if e.traj.istime then (0 : ℚ) else 1) ≤ e.traj.t := by
    split <;> linarith
  simp only [List.getLastD_eq_getLast?] at hcase ⊢
  by_cases h1 :
      e.traj.s.length < 2 ∨ withinCutoff (e.traj.s.getLast?.getD []) q cutoff = true
  · by_cases h2 : e.time_step ≥ e.traj.t - (if e.traj.istime then (0 : ℚ) else 1)
    · refine ⟨?_, fun _ => ?_⟩ <;>
        simp [Exec.isFinished, Exec.isSucceeded, hnf, h1, h2]
    · refine ⟨?_, fun _ => ?_⟩ <;>
        simp [Exec.isFinished, Exec.isSucceeded, hnf, h1, h2]
  · have h2 : e.time_step ≥ e.traj.t - (if e.traj.istime then (0 : ℚ) else 1) := by
      rcases hcase with h | h | h
      · exact absurd (Or.inl h) h1
      · exact absurd (Or.inr h) h1
      · linarith
    refine ⟨?_, fun _ => ?_⟩ <;>
      simp [Exec.isFinished, Exec.isSucceeded, hnf, h1, h2]

/-- Witness for C1 at a concrete input: a fresh 1-joint executor over a
2-sample index-parameterized trajectory whose final sample `[0]` matches
the robot's current position `[0]`. -/
theorem isFinished_success_cases_witness :
    ((Exec.init 1 ⟨false, [[1], [0]], [[0], [0]], 2⟩).isFinished [0] (1/100)).1 = true ∧
      ((Exec.init 1 ⟨false, [[1], [0]], [[0], [0]], 2⟩).isFinished [0] (1/100)).2.isSucceeded
        = true := by
  have hw : withinCutoff
      ((Exec.init 1 ⟨false, [[1], [0]], [[0], [0]], 2⟩).traj.s.getLastD []) [0] (1/100)
        = true := by
    simp [withinCutoff, Exec.init]
  have h := isFinished_success_cases (Exec.init 1 ⟨false, [[1], [0]], [[0], [0]], 2⟩)
    [0] (1/100) rfl (Or.inr (Or.inl hw))
  exact ⟨h.1, h.2 (Or.inl hw)⟩

/-! ## Claim C10 -/

/-- **C10.** The finished state of a `TrajectoryExecutor` is sticky: once
`is_finished()` has returned `True` for any reason, then after any further
sequence of operations (steps, aborts, finish polls) the `_finished` flag
still holds, every subsequent `is_finished()` call returns `True`, and
every subsequent `step(dt)` call returns the all-zero joint-velocity
vector of length `robot.n`. -/
theorem executor_finished_sticky (e : Exec) (q0 : JointVec) (c0 : ℚ)
    (h : (e.isFinished q0 c0).1 = true)
    (ops : List ExOp) (dt : ℚ) (env : StepEnv) (c : ℚ) (q : JointVec) :
    (runOps (e.isFinished q0 c0).2 ops).finished = true ∧
      ((runOps (e.isFinished q0 c0).2 ops).isFinished q c).1 = true ∧
      ((runOps (e.isFinished q0 c0).2 ops).step dt env).1
        = List.replicate e.n 0 := by
  have hflag : (e.isFinished q0 c0).2.finished = true := by
    rw [isFinished_flag]; exact h
  have hfin : (runOps (e.isFinished q0 c0).2 ops).finished = true :=
    runOps_preserves_finished ops _ hflag
  have hn : (runOps (e.isFinished q0 c0).2 ops).n = e.n := by
    rw [runOps_n, isFinished_n]
  refine ⟨hfin, ?_, ?_⟩
  · rw [isFinished_of_finished _ q c hfin]
  · rw [step_of_finished _ dt env hfin, hn]

/-- Witness for C10 at a concrete input: a 1-joint executor over a
single-sample trajectory (finish-by-proximity fires), followed by an abort
and a step. -/
theorem executor_finished_sticky_witness :
    (runOps ((Exec.init 1 ⟨false, [[0]], [[0]], 1⟩).isFinished [5] (1/100)).2
        [ExOp.opAbort, ExOp.opStep 1 ⟨[5], [0], [5]⟩]).finished = true ∧
      ((runOps ((Exec.init 1 ⟨false, [[0]], [[0]], 1⟩).isFinished [5] (1/100)).2
          [ExOp.opAbort, ExOp.opStep 1 ⟨[5], [0], [5]⟩]).isFinished [5] (1/100)).1 = true ∧
      ((runOps ((Exec.init 1 ⟨false, [[0]], [[0]], 1⟩).isFinished [5] (1/100)).2
          [ExOp.opAbort, ExOp.opStep 1 ⟨[5], [0], [5]⟩]).step 1 ⟨[5], [0], [5]⟩).1
        = List.replicate 1 0 :=
  executor_finished_sticky (Exec.init 1 ⟨false, [[0]], [[0]], 1⟩) [5] (1/100)
    (by simp [Exec.isFinished, Exec.init])
    [ExOp.opAbort, ExOp.opStep 1 ⟨[5], [0], [5]⟩] 1 ⟨[5], [0], [5]⟩ (1/100) [5]

end Armer

namespace Armer

/-! ## Trajectory collision check
(`ROSRobot.trajectory_collision_checker`, ROSRobot.py 2332–2405, and
`ROSRobot.check_collision_per_state`, 2414–2447)

`check_collision_per_state(q)` runs the full ghost-robot shape
intersection machinery; here it is the abstract parameter
`clear : JointVec → Bool` (`True` = state collision-free), matching its
`go_signal` result. -/

/-- The loop stride
(`step_value = int(len(traj.s) / step_thresh) if ... > 0 else 1`,
ROSRobot.py 2343–2344, `step_thresh = 10`). -/
def stepValue (len : Nat) : Nat :=
  if len / 10 > 0 then len / 10 else 1

/-- The indices visited by `for idx in range(0, len(traj.s), step_value)`:
`0, sv, 2·sv, …`, i.e. `⌈len / sv⌉` of them. -/
def walkIdxs (len sv : Nat) : List Nat :=
  (List.range ((len + sv - 1) / sv)).map (fun k => k * sv)

/-- The strided walk of ROSRobot.py 2376–2400: visits the given indices in
order, breaking at the first state that is not collision-free (setting
`go = False`); threads the `go` flag and counts the
`check_collision_per_state` invocations made by the loop. -/
def walkLoop (clear : JointVec → Bool) (s : List JointVec) :
    List Nat → Bool → Nat → Bool × Nat
  | [], go, cnt => (go, cnt)
  | i :: rest, go, cnt =>
      if clear (s.getD i []) then walkLoop clear s rest go (cnt + 1)
      else (false, cnt + 1)

/-- `ROSRobot.trajectory_collision_checker(traj)` (ROSRobot.py 2332–2405),
reduced to its collision logic (the RViz marker construction is
display-only).  Checks the final sample first (line 2368), then walks the
trajectory at the fixed stride;  returns the `go` flag together with the
number of per-state collision evaluations made by the strided loop. -/
def trajectoryCollisionChecker (clear : JointVec → Bool) (s : List JointVec) :
    Bool × Nat :=
  let sv := stepValue s.length
  let goFinal := if clear (s.getLastD []) = false then false else true
  walkLoop clear s (walkIdxs s.length sv) goFinal 0

/-- The walk returns `True` exactly when the incoming flag holds and every
visited sample is collision-free. -/
theorem walkLoop_fst (clear : JointVec → Bool) (s : List JointVec) :
    ∀ (idxs : List Nat) (go : Bool) (cnt : Nat),
      (walkLoop clear s idxs go cnt).1
        = (go && idxs.all (fun i => clear (s.getD i []))) := by
  intro idxs
  induction idxs with
  | nil => intro go cnt; simp [walkLoop]
  | cons i rest ih =>
      intro go cnt
      by_cases h : clear (s.getD i []) = true
      · rw [walkLoop, if_pos h, ih go (cnt + 1), List.all_cons, h, Bool.true_and]
      · have hf : clear (s.getD i []) = false := by
          revert h; cases clear (s.getD i []) <;> simp
        rw [walkLoop, if_neg h, List.all_cons, hf, Bool.false_and, Bool.and_false]

/-- The walk never makes more evaluations than it has indices. -/
theorem walkLoop_cnt_le (clear : JointVec → Bool) (s : List JointVec) :
    ∀ (idxs : List Nat) (go : Bool) (cnt : Nat),
      (walkLoop clear s idxs go cnt).2 ≤ cnt + idxs.length := by
  intro idxs
  induction idxs with
  | nil => intro go cnt; simp [walkLoop]
  | cons i rest ih =>
      intro go cnt
      by_cases h : clear (s.getD i []) = true
      · rw [walkLoop, if_pos h, List.length_cons]
        exact le_trans (ih go (cnt + 1)) (by omega)
      · rw [walkLoop, if_neg h, List.length_cons]
        simp

end Armer

namespace Armer

/-! ## Claim C3 -/

/-- **C3.** `trajectory_collision_checker` returns `False` if the final
sample is in collision or if any of the strided samples it checks is in
collision, and returns `True` exactly when every checked sample, the final
state included, is collision-free. -/
theorem trajectoryCollisionChecker_clear_iff (clear : JointVec → Bool)
    (s : List JointVec) (h : s ≠ []) :
    (trajectoryCollisionChecker clear s).1 = true ↔
      (clear (s.getLastD []) = true ∧
        ∀ i ∈ walkIdxs s.length (stepValue s.length), clear (s.getD i []) = true) := by
  unfold trajectoryCollisionChecker
  rw [walkLoop_fst]
  cases hc : clear (s.getLastD []) with
  | false => simp [hc]
  | true => simp [hc, List.all_eq_true]

/-- Witness for C3: a single-sample trajectory with an everywhere-clear
collision oracle; both sides of the equivalence hold. -/
theorem trajectoryCollisionChecker_clear_iff_witness :
    ((trajectoryCollisionChecker (fun _ => true) [[0]]).1 = true ↔
      ((fun (_ : JointVec) => true) (([[0]] : List JointVec).getLastD []) = true ∧
        ∀ i ∈ walkIdxs ([[0]] : List JointVec).length (stepValue ([[0]] : List JointVec).length),
          (fun (_ : JointVec) => true) (([[0]] : List JointVec).getD i []) = true)) :=
  trajectoryCollisionChecker_clear_iff (fun _ => true) [[0]] (by simp)

/-! ## Claim C7 -/

/-- The walk evaluates exactly up to (and including) the first violating
index: the count is `min (#indices) (#clear-prefix + 1)`. -/
theorem walkLoop_cnt_eq (clear : JointVec → Bool) (s : List JointVec) :
    ∀ (idxs : List Nat) (go : Bool) (cnt : Nat),
      (walkLoop clear s idxs go cnt).2
        = cnt + min idxs.length
            ((idxs.takeWhile (fun i => clear (s.getD i []))).length + 1) := by
  intro idxs
  induction idxs with
  | nil => intro go cnt; simp [walkLoop]
  | cons i rest ih =>
      intro go cnt
      by_cases h : clear (s.getD i []) = true
      · rw [walkLoop, if_pos h, ih go (cnt + 1), List.takeWhile_cons, if_pos h,
          List.length_cons, List.length_cons]
        omega
      · rw [walkLoop, if_neg h, List.takeWhile_cons, if_neg h, List.length_cons]
        simp

/-- The stride is always positive. -/
theorem stepValue_pos (len : Nat) : 0 < stepValue len := by
  unfold stepValue; split <;> omega

/-- The strided walk visits at most 19 indices, whatever the trajectory
length (the worst case is a 19-sample trajectory, stride 1). -/
theorem walkIdxs_length_le (len : Nat) (h : 1 ≤ len) :
    (walkIdxs len (stepValue len)).length ≤ 19 := by
  unfold walkIdxs stepValue
  simp only [List.length_map, List.length_range]
  by_cases h10 : len / 10 > 0
  · rw [if_pos h10]
    have hql : 10 * (len / 10) ≤ len := Nat.mul_div_le len 10
    have hqu : len < 10 * (len / 10) + 10 := by omega
    have h20 : (len + len / 10 - 1) / (len / 10) < 20 := by
      rw [Nat.div_lt_iff_lt_mul h10]
      omega
    omega
  · rw [if_neg h10]
    omega

/-- **C7 (amended).** For every nonempty trajectory, the walk of
`trajectory_collision_checker` proceeds at the fixed stride
`max(1, ⌊len/10⌋)`, makes exactly `min (#strided indices)
(#clear-prefix + 1)` per-state evaluations — i.e. stops at the first
violation found — and that count is at most 19 (so at most 20 evaluations
in total, counting the final-sample check done first); the claimed "at
most about 10" bound does not hold (see the counterexample). -/
theorem trajectoryCollisionChecker_stride_bound (clear : JointVec → Bool)
    (s : List JointVec) (h : 1 ≤ s.length) :
    (trajectoryCollisionChecker clear s).2
        = min (walkIdxs s.length (stepValue s.length)).length
            (((walkIdxs s.length (stepValue s.length)).takeWhile
                (fun i => clear (s.getD i []))).length + 1) ∧
      (trajectoryCollisionChecker clear s).2 ≤ 19 := by
  have he : (trajectoryCollisionChecker clear s).2
      = min (walkIdxs s.length (stepValue s.length)).length
          (((walkIdxs s.length (stepValue s.length)).takeWhile
              (fun i => clear (s.getD i []))).length + 1) := by
    unfold trajectoryCollisionChecker
    rw [walkLoop_cnt_eq]
    exact Nat.zero_add _
  refine ⟨he, ?_⟩
  rw [he]
  exact le_trans (min_le_left _ _) (walkIdxs_length_le s.length h)

/-- Witness for C7 (amended) at a concrete input: a 3-sample trajectory
with an everywhere-clear oracle. -/
theorem trajectoryCollisionChecker_stride_bound_witness :
    (trajectoryCollisionChecker (fun _ => true) [[0], [1], [2]]).2
        = min (walkIdxs 3 (stepValue 3)).length
            (((walkIdxs 3 (stepValue 3)).takeWhile
                (fun i => (fun (_ : JointVec) => true)
                  (([[0], [1], [2]] : List JointVec).getD i []))).length + 1) ∧
      (trajectoryCollisionChecker (fun _ => true) [[0], [1], [2]]).2 ≤ 19 :=
  trajectoryCollisionChecker_stride_bound (fun _ => true) [[0], [1], [2]] (by simp)

/-- **C7 counterexample.** On a 19-sample, everywhere-clear trajectory the
checker performs 19 per-state evaluations in the strided walk (stride is
`⌊19/10⌋ = 1`) plus the final-sample check: 20 evaluations, refuting
"at most about 10 per-state collision evaluations occur regardless of
trajectory length". -/
theorem trajectoryCollisionChecker_eval_count_19 :
    (trajectoryCollisionChecker (fun _ => true)
        (List.replicate 19 ([0] : JointVec))).2 + 1 = 20 ∧
      ¬((trajectoryCollisionChecker (fun _ => true)
          (List.replicate 19 ([0] : JointVec))).2 + 1 ≤ 10) := by
  constructor <;> decide

end Armer

namespace Armer

/-! ## Safe-state window
(`ROSRobot.set_safe_state`, ROSRobot.py 2787–2801; window allocated as
`np.zeros([200, len(self.q)])` with pointer 0, ROSRobot.py 230–231) -/

/-- The safe-state window state: the 200-row array `q_safe_window` and the
fill pointer `q_safe_window_p`. -/
structure SafeWindow where
  win : List JointVec
  p : Nat
deriving Repr, DecidableEq

/-- `self.q_safe_window = np.zeros([200, len(self.q)])`;
`self.q_safe_window_p = 0` (ROSRobot.py 230–231). -/
def SafeWindow.init (n : Nat) : SafeWindow :=
  { win := List.replicate 200 (List.replicate n 0), p := 0 }

/-- `ROSRobot.set_safe_state()` (ROSRobot.py 2787–2801): while the pointer
is below the window length, write the current `q` at the pointer and
advance it; once full, `np.roll(..., shift=-1, axis=0)` shifts every row
left by one and the current `q` is written into the last slot. -/
def setSafeState (q : JointVec) (st : SafeWindow) : SafeWindow :=
  if st.p < st.win.length then
    { win := st.win.set st.p q, p := st.p + 1 }
  else
    { win := st.win.drop 1 ++ [q], p := st.p }

/-- Modelled from the spec: the per-tick supervisor step 6 of §4.5 ("If
not in collision, append current q to the SafeStateWindow").  The
top-level per-tick caller of `set_safe_state` (the supervisor `step` that
runs the collision check each tick) is part of this repository but not
under `src/` — the `armer.py` present is a stale variant that neither
matches `entry_point.py` nor calls `set_safe_state`. -/
def supervisorSafeTick (inCollision : Bool) (q : JointVec) (st : SafeWindow) :
    SafeWindow :=
  if inCollision then st else setSafeState q st

/-- The window reached after appending the history `hist` of safe states
(oldest first) to the initial all-zeros window. -/
def windowOfHist (n : Nat) (hist : List JointVec) : SafeWindow :=
  hist.foldl (fun st q => setSafeState q st) (SafeWindow.init n)

/-- One `set_safe_state` call advances the window characterisation by one
history entry. -/
theorem setSafeState_spec (n : Nat) (q : JointVec) (hist : List JointVec)
    (st : SafeWindow)
    (hw : st.win = hist.drop (hist.length - 200)
      ++ List.replicate (200 - hist.length) (List.replicate n 0))
    (hp : st.p = min hist.length 200) :
    (setSafeState q st).win = (hist ++ [q]).drop ((hist.length + 1) - 200)
        ++ List.replicate (200 - (hist.length + 1)) (List.replicate n 0) ∧
      (setSafeState q st).p = min (hist.length + 1) 200 := by
  have hwinlen : st.win.length = 200 := by
    rw [hw]; simp [List.length_drop]; omega
  by_cases hlt : hist.length < 200
  · -- filling phase: `p < len(win)` holds
    have hdrop : hist.length - 200 = 0 := by omega
    rw [setSafeState, if_pos (by rw [hwinlen, hp]; omega)]
    constructor
    · rw [hw, hp, hdrop, List.drop_zero, Nat.min_eq_left (by omega)]
      rw [List.set_append_right _ _ (le_refl hist.length)]
      have hd1 : (hist.length + 1) - 200 = 0 := by omega
      rw [Nat.sub_self, hd1, List.drop_zero]
      have hrep : (List.replicate (200 - hist.length) (List.replicate n 0)).set 0 q
          = q :: List.replicate (200 - (hist.length + 1)) (List.replicate n 0) := by
        have h200 : 200 - hist.length = (200 - (hist.length + 1)) + 1 := by omega
        rw [h200, List.replicate_succ]
        rfl
      rw [hrep]
      simp
    · simp [hp]; omega
  · -- full window: shift left and write at the end
    have hlen : hist.length ≥ 200 := by omega
    rw [setSafeState, if_neg (by rw [hwinlen, hp]; omega)]
    have hrep0 : (200 : Nat) - hist.length = 0 := by omega
    have hrep1 : (200 : Nat) - (hist.length + 1) = 0 := by omega
    constructor
    · rw [hw, hrep0, List.replicate_zero, List.append_nil, List.drop_drop]
      have h1 : (hist.length - 200) + 1 = (hist.length + 1) - 200 := by omega
      rw [h1]
      have h2 : (hist ++ [q]).drop (hist.length + 1 - 200)
          = hist.drop (hist.length + 1 - 200) ++ [q] :=
        List.drop_append_of_le_length (by omega)
      rw [h2, hrep1, List.replicate_zero, List.append_nil]
    · rw [hp]; omega

/-- Characterisation of the window after any history: the rows are the
most recent (at most 200) history entries in order, zero-padded at the
tail, and the pointer is `min |hist| 200`. -/
theorem windowOfHist_spec (n : Nat) (hist : List JointVec) :
    (windowOfHist n hist).win
        = hist.drop (hist.length - 200)
            ++ List.replicate (200 - hist.length) (List.replicate n 0) ∧
      (windowOfHist n hist).p = min hist.length 200 := by
  induction hist using List.reverseRecOn with
  | nil => simp [windowOfHist, SafeWindow.init]
  | append_singleton hs q ih =>
      have hstep := setSafeState_spec n q hs (windowOfHist n hs) ih.1 ih.2
      have hfold : windowOfHist n (hs ++ [q]) = setSafeState q (windowOfHist n hs) := by
        unfold windowOfHist
        rw [List.foldl_append, List.foldl_cons, List.foldl_nil]
      rw [hfold]
      simpa using hstep

end Armer

namespace Armer

/-- Appending one history entry folds through `setSafeState`. -/
theorem windowOfHist_append (n : Nat) (hist : List JointVec) (q : JointVec) :
    windowOfHist n (hist ++ [q]) = setSafeState q (windowOfHist n hist) := by
  unfold windowOfHist
  rw [List.foldl_append, List.foldl_cons, List.foldl_nil]

/-! ## Claim C4 -/

/-- **C4.** (spec-modelled per-tick caller, see `supervisorSafeTick`.)
On a tick during which the robot is not in collision, the current joint
state `q` is appended to the safe-state window; the window keeps its
fixed capacity of 200 joint-vectors; its contents are exactly the most
recent (at most 200) safe states in order — so once full, each append
discards the oldest entry — zero-padded until full; row 0 always holds the
oldest retained safe state; and a tick in collision leaves the window
untouched. -/
theorem safe_state_window_tick (n : Nat) (hist : List JointVec) (q : JointVec) :
    supervisorSafeTick false q (windowOfHist n hist) = windowOfHist n (hist ++ [q]) ∧
      (windowOfHist n (hist ++ [q])).win.length = 200 ∧
      (windowOfHist n (hist ++ [q])).win
          = (hist ++ [q]).drop ((hist.length + 1) - 200)
              ++ List.replicate (200 - (hist.length + 1)) (List.replicate n 0) ∧
      (windowOfHist n (hist ++ [q])).win.head?
          = ((hist ++ [q]).drop ((hist.length + 1) - 200)).head? ∧
      supervisorSafeTick true q (windowOfHist n hist) = windowOfHist n hist := by
  have hspec := windowOfHist_spec n (hist ++ [q])
  have hlen : (hist ++ [q]).length = hist.length + 1 := by simp
  rw [hlen] at hspec
  refine ⟨?_, ?_, hspec.1, ?_, rfl⟩
  · rw [supervisorSafeTick, if_neg (by simp), windowOfHist_append]
  · rw [hspec.1]
    simp [List.length_drop]
    omega
  · rw [hspec.1]
    have hne : (hist ++ [q]).drop ((hist.length + 1) - 200) ≠ [] := by
      have : ((hist ++ [q]).drop ((hist.length + 1) - 200)).length
          = (hist.length + 1) - ((hist.length + 1) - 200) := by
        simp [List.length_drop]
      intro hcontra
      rw [hcontra] at this
      simp at this
      omega
    obtain ⟨a, as, hd⟩ := List.exists_cons_of_ne_nil hne
    rw [hd]
    rfl

end Armer

namespace Armer

/-! ## ROSRobot control mode, workspace gate and general executor
(`ROSRobot.py` 62–65, 2939–3017, 3230–3281, 2738–2763) -/

/-- `class ControlMode: ERROR=0; JOINTS=1; CARTESIAN=2` (ROSRobot.py 62–65). -/
inductive ControlMode where
  | ERROR
  | JOINTS
  | CARTESIAN
deriving Repr, DecidableEq

/-- `geometry_msgs/Pose`: position and quaternion orientation, all fields
defaulting to zero (`Pose()`). -/
structure Pose3 where
  px : ℚ := 0
  py : ℚ := 0
  pz : ℚ := 0
  ox : ℚ := 0
  oy : ℚ := 0
  oz : ℚ := 0
  ow : ℚ := 0
deriving Repr, DecidableEq

/-- The default-constructed `Pose()`. -/
def Pose3.zero : Pose3 := {}

/-- What `pose_within_workspace` finds when it resolves the
`/robot_workspace` parameter, the file behind it and its `workspace` key
(ROSRobot.py 3236–3267): no path configured, a path that is not a file,
a file without a `workspace` entry, or the six bounds. -/
inductive WorkspaceCfg where
  | noPath
  | invalidPath
  | invalidYaml
  | bounds (min_x min_y min_z max_x max_y max_z : ℚ)
deriving Repr, DecidableEq

/-- `ROSRobot.pose_within_workspace(pose)` (ROSRobot.py 3230–3281).
`none` models the Python `None` argument. -/
def poseWithinWorkspace (cfg : WorkspaceCfg) (pose : Option Pose3) : Bool :=
  match pose with
  | none => false
  | some p =>
    if p = Pose3.zero then false
    else
      match cfg with
      | .noPath => true          -- no workspace defined: assume infinite workspace
      | .invalidPath => false    -- fail safe: a definition was attempted
      | .invalidYaml => false
      | .bounds mnx mny mnz mxx mxy mxz =>
        if p.px ≤ mnx ∨ p.px ≥ mxx ∨ p.py ≤ mny ∨ p.py ≥ mxy
            ∨ p.pz ≤ mnz ∨ p.pz ≥ mxz then false
        else true

/-- The per-robot state touched by the executor pipeline and the command
handlers: `_controller_mode`, `j_v`, `preempted`, `singularity_approached`
and `manip_scalar`. -/
structure RobotState where
  mode : ControlMode
  j_v : JointVec
  preempted : Bool
  singularity_approached : Bool
  manip_scalar : ℚ
deriving Repr, DecidableEq

/-- A trajectory as produced by `armer.utils.traj_generator` (not under
`src/`): its `name` (checked against `'invalid'`) and its sample list. -/
structure GTraj where
  name : String
  s : List JointVec
deriving Repr, DecidableEq

/-- The external capabilities consumed by `general_executor`: the resolved
workspace configuration, the kinematic `manipulability` scalar, the
configured singularity threshold, the trajectory generator, the ghost
per-state collision oracle, and the outcome of the execution phase
(executor polling / ros_control) once motion is under way. -/
structure GEEnv where
  ws : WorkspaceCfg
  manip : JointVec → ℚ
  singularity_thresh : ℚ
  trajGen : JointVec → ℚ → GTraj
  stateClear : JointVec → Bool
  execSuccess : Bool

/-- `ROSRobot.check_singularity(q)` (ROSRobot.py 2738–2763): stores the
manipulability scalar and reports a singularity only while the robot is
not already preempted. -/
def checkSingularity (env : GEEnv) (q : JointVec) (st : RobotState) :
    Bool × RobotState :=
  let m := env.manip q
  let st1 := { st with manip_scalar := m }
  if |m| ≤ env.singularity_thresh ∧ st1.preempted = false then
    (true, { st1 with singularity_approached := true })
  else
    (false, { st1 with singularity_approached := false })

/-- The observable outcome of one `general_executor` call: its boolean
return, whether `traj_generator` was invoked, whether the execution phase
was entered (an executor installed / ros_control trajectory run), and the
robot state afterwards. -/
structure GEResult where
  result : Bool
  trajGenerated : Bool
  executorInstalled : Bool
  state : RobotState
deriving Repr, DecidableEq

/-- `ROSRobot.general_executor(q, pose, collision_ignore, workspace_ignore,
move_time_sec)` (ROSRobot.py 2939–3017): workspace gate, singularity gate,
trajectory generation, `'invalid'` check, ghost collision check, then the
execution phase. -/
def generalExecutor (env : GEEnv) (st : RobotState) (q : JointVec)
    (pose : Option Pose3) (collision_ignore workspace_ignore : Bool)
    (move_time_sec : ℚ) : GEResult :=
  if poseWithinWorkspace env.ws pose = false ∧ workspace_ignore = false then
    { result := false, trajGenerated := false, executorInstalled := false, state := st }
  else
    let cs := checkSingularity env q st
    if cs.1 then
      { result := false, trajGenerated := false, executorInstalled := false, state := cs.2 }
    else
      let traj := env.trajGen q move_time_sec
      if traj.name = "invalid" then
        { result := false, trajGenerated := true, executorInstalled := false, state := cs.2 }
      else
        let go := if collision_ignore then true
                  else (trajectoryCollisionChecker env.stateClear traj.s).1
        if go then
          { result := env.execSuccess, trajGenerated := true,
            executorInstalled := true, state := cs.2 }
        else
          { result := false, trajGenerated := true,
            executorInstalled := false, state := cs.2 }

end Armer

namespace Armer

/-! ## Claim C5 -/

/-- With a configured workspace, a pose at or beyond any bound is judged
outside (ROSRobot.py 3273–3279). -/
theorem poseWithinWorkspace_outside (p : Pose3)
    (mnx mny mnz mxx mxy mxz : ℚ)
    (hout : p.px ≤ mnx ∨ p.px ≥ mxx ∨ p.py ≤ mny ∨ p.py ≥ mxy
      ∨ p.pz ≤ mnz ∨ p.pz ≥ mxz) :
    poseWithinWorkspace (.bounds mnx mny mnz mxx mxy mxz) (some p) = false := by
  unfold poseWithinWorkspace
  dsimp only
  by_cases hd : p = Pose3.zero
  · rw [if_pos hd]
  · rw [if_neg hd]
    rw [if_pos hout]

/-- **C5.** For every pose outside the configured workspace bounds,
`general_executor` with `workspace_ignore=False` returns failure without
generating a trajectory, without entering the execution phase, and with
the robot state — `_controller_mode` and `j_v` included — unchanged. -/
theorem generalExecutor_workspace_gate (env : GEEnv) (st : RobotState)
    (q : JointVec) (p : Pose3) (collision_ignore : Bool) (mt : ℚ)
    (mnx mny mnz mxx mxy mxz : ℚ)
    (hws : env.ws = .bounds mnx mny mnz mxx mxy mxz)
    (hout : p.px ≤ mnx ∨ p.px ≥ mxx ∨ p.py ≤ mny ∨ p.py ≥ mxy
      ∨ p.pz ≤ mnz ∨ p.pz ≥ mxz) :
    (generalExecutor env st q (some p) collision_ignore false mt).result = false ∧
      (generalExecutor env st q (some p) collision_ignore false mt).trajGenerated = false ∧
      (generalExecutor env st q (some p) collision_ignore false mt).executorInstalled = false ∧
      (generalExecutor env st q (some p) collision_ignore false mt).state = st := by
  have hpw : poseWithinWorkspace env.ws (some p) = false := by
    rw [hws]; exact poseWithinWorkspace_outside p _ _ _ _ _ _ hout
  unfold generalExecutor
  rw [if_pos ⟨hpw, rfl⟩]
  exact ⟨rfl, rfl, rfl, rfl⟩

/-- Witness for C5 at a concrete input: unit-box workspace, pose at
`x = 2` beyond `max_x = 1`. -/
theorem generalExecutor_workspace_gate_witness :
    (generalExecutor
        ⟨.bounds 0 0 0 1 1 1, fun _ => 0, 1, fun _ _ => ⟨"t", [[0]]⟩, fun _ => true, true⟩
        ⟨.JOINTS, [0], false, false, 0⟩ [0] (some ⟨2, 0, 0, 0, 0, 0, 0⟩) false false 5).result
        = false ∧
      (generalExecutor
        ⟨.bounds 0 0 0 1 1 1, fun _ => 0, 1, fun _ _ => ⟨"t", [[0]]⟩, fun _ => true, true⟩
        ⟨.JOINTS, [0], false, false, 0⟩ [0] (some ⟨2, 0, 0, 0, 0, 0, 0⟩) false false 5).trajGenerated
        = false ∧
      (generalExecutor
        ⟨.bounds 0 0 0 1 1 1, fun _ => 0, 1, fun _ _ => ⟨"t", [[0]]⟩, fun _ => true, true⟩
        ⟨.JOINTS, [0], false, false, 0⟩ [0] (some ⟨2, 0, 0, 0, 0, 0, 0⟩) false false 5).executorInstalled
        = false ∧
      (generalExecutor
        ⟨.bounds 0 0 0 1 1 1, fun _ => 0, 1, fun _ _ => ⟨"t", [[0]]⟩, fun _ => true, true⟩
        ⟨.JOINTS, [0], false, false, 0⟩ [0] (some ⟨2, 0, 0, 0, 0, 0, 0⟩) false false 5).state
        = ⟨.JOINTS, [0], false, false, 0⟩ :=
  generalExecutor_workspace_gate
    ⟨.bounds 0 0 0 1 1 1, fun _ => 0, 1, fun _ _ => ⟨"t", [[0]]⟩, fun _ => true, true⟩
    ⟨.JOINTS, [0], false, false, 0⟩ [0] ⟨2, 0, 0, 0, 0, 0, 0⟩ false 5
    0 0 0 1 1 1 rfl (Or.inr (Or.inl (by decide)))

/-! ## Claim C6 -/

/-- **C6 counterexample.** A goal `q` at singularity (manipulability `0`,
threshold `1`) is *not* rejected when the `preempted` flag is set —
`check_singularity` (ROSRobot.py 2758) requires `preempted == False` to
report a singularity — so `general_executor` generates a trajectory and
returns success, refuting the claim at this concrete input. -/
theorem generalExecutor_singularity_bypassed :
    |(0 : ℚ)| ≤ (1 : ℚ) ∧
      (generalExecutor
          ⟨.noPath, fun _ => 0, 1, fun _ _ => ⟨"t", [[0]]⟩, fun _ => true, true⟩
          ⟨.ERROR, [0], true, false, 0⟩ [0] none true true 5).trajGenerated = true ∧
      (generalExecutor
          ⟨.noPath, fun _ => 0, 1, fun _ _ => ⟨"t", [[0]]⟩, fun _ => true, true⟩
          ⟨.ERROR, [0], true, false, 0⟩ [0] none true true 5).result = true := by
  refine ⟨by simp, ?_, ?_⟩ <;>
    simp [generalExecutor, checkSingularity, poseWithinWorkspace]

/-- **C6 (amended).** For every goal joint state `q` whose manipulability
index is at or below the configured singularity threshold, *provided the
`preempted` flag is clear*, `general_executor` returns failure before any
trajectory is generated, without entering the execution phase, and with
`ControlMode` unchanged. -/
theorem generalExecutor_singularity_gate (env : GEEnv) (st : RobotState)
    (q : JointVec) (pose : Option Pose3)
    (collision_ignore workspace_ignore : Bool) (mt : ℚ)
    (hm : |env.manip q| ≤ env.singularity_thresh)
    (hp : st.preempted = false) :
    (generalExecutor env st q pose collision_ignore workspace_ignore mt).result = false ∧
      (generalExecutor env st q pose collision_ignore workspace_ignore mt).trajGenerated
        = false ∧
      (generalExecutor env st q pose collision_ignore workspace_ignore mt).executorInstalled
        = false ∧
      (generalExecutor env st q pose collision_ignore workspace_ignore mt).state.mode
        = st.mode := by
  unfold generalExecutor
  by_cases hgate :
      poseWithinWorkspace env.ws pose = false ∧ workspace_ignore = false
  · rw [if_pos hgate]
    exact ⟨rfl, rfl, rfl, rfl⟩
  · rw [if_neg hgate]
    have hcs : (checkSingularity env q st).1 = true := by
      unfold checkSingularity
      rw [if_pos ⟨hm, hp⟩]
  -- the singularity branch leaves the mode untouched
    rw [if_pos hcs]
    refine ⟨rfl, rfl, rfl, ?_⟩
    unfold checkSingularity
    rw [if_pos ⟨hm, hp⟩]

/-- Witness for C6 (amended) at a concrete input: manipulability `0`,
threshold `1`, `preempted` clear. -/
theorem generalExecutor_singularity_gate_witness :
    (generalExecutor
        ⟨.noPath, fun _ => 0, 1, fun _ _ => ⟨"t", [[0]]⟩, fun _ => true, true⟩
        ⟨.JOINTS, [0], false, false, 0⟩ [0] none true true 5).result = false ∧
      (generalExecutor
        ⟨.noPath, fun _ => 0, 1, fun _ _ => ⟨"t", [[0]]⟩, fun _ => true, true⟩
        ⟨.JOINTS, [0], false, false, 0⟩ [0] none true true 5).trajGenerated = false ∧
      (generalExecutor
        ⟨.noPath, fun _ => 0, 1, fun _ _ => ⟨"t", [[0]]⟩, fun _ => true, true⟩
        ⟨.JOINTS, [0], false, false, 0⟩ [0] none true true 5).executorInstalled = false ∧
      (generalExecutor
        ⟨.noPath, fun _ => 0, 1, fun _ _ => ⟨"t", [[0]]⟩, fun _ => true, true⟩
        ⟨.JOINTS, [0], false, false, 0⟩ [0] none true true 5).state.mode = .JOINTS :=
  generalExecutor_singularity_gate
    ⟨.noPath, fun _ => 0, 1, fun _ _ => ⟨"t", [[0]]⟩, fun _ => true, true⟩
    ⟨.JOINTS, [0], false, false, 0⟩ [0] none true true 5 (by simp) rfl

end Armer

namespace Armer

/-! ## Motion command handlers (claim C2)
Control-flow skeletons of the handlers, reduced to their ControlMode gate
and their path to commanding motion (`__vel_move` or `general_executor`);
transport, TF and action-server plumbing are abstracted away. -/

/-- Outcome of a command handler: whether it went on to command motion,
and the `general_executor` outcome when one was invoked. -/
structure HandlerRes where
  motionAttempted : Bool
  ge : Option GEResult
deriving Repr, DecidableEq

/-- `ROSRobot.velocity_cb` (ROSRobot.py 621–638): refuses while
`_controller_mode == ControlMode.ERROR`, otherwise proceeds into
`__vel_move`. -/
def velocityCb (st : RobotState) : HandlerRes :=
  if st.mode = ControlMode.ERROR then { motionAttempted := false, ge := none }
  else { motionAttempted := true, ge := none }

/-- `ROSRobot.joint_velocity_cb` (ROSRobot.py 640–661): refuses in ERROR
mode or on a joint-vector length mismatch, otherwise installs the joint
velocity. -/
def jointVelocityCb (st : RobotState) (msgJoints : JointVec) : HandlerRes :=
  if st.mode = ControlMode.ERROR then { motionAttempted := false, ge := none }
  else if msgJoints.length ≠ st.j_v.length then { motionAttempted := false, ge := none }
  else { motionAttempted := true, ge := none }

/-- `ROSRobot.servo_cb` (ROSRobot.py 696–765): refuses in ERROR mode,
otherwise servos towards the goal pose. -/
def servoCb (st : RobotState) : HandlerRes :=
  if st.mode = ControlMode.ERROR then { motionAttempted := false, ge := none }
  else { motionAttempted := true, ge := none }

/-- `ROSRobot.pose_cb` (ROSRobot.py 767–813): **no** ControlMode gate (cf.
the TODO at ROSRobot.py 3166) — after the IK check it always calls
`general_executor(q=solution.q, pose=pose, collision_ignore=False,
workspace_ignore=False)`. -/
def poseCb (env : GEEnv) (st : RobotState) (ikValid : Bool)
    (solution : JointVec) (pose : Pose3) (mt : ℚ) : HandlerRes :=
  if ikValid = false then { motionAttempted := false, ge := none }
  else
    { motionAttempted := true
      ge := some (generalExecutor env st solution (some pose) false false mt) }

/-- `ROSRobot.joint_pose_cb` (ROSRobot.py 815–841): no ControlMode gate —
always calls `general_executor(q=goal.joints, workspace_ignore=True)`. -/
def jointPoseCb (env : GEEnv) (st : RobotState) (goalJoints : JointVec)
    (mt : ℚ) : HandlerRes :=
  { motionAttempted := true
    ge := some (generalExecutor env st goalJoints none false true mt) }

/-- `ROSRobot.named_pose_cb` (ROSRobot.py 843–887): rejects an unknown
pose name, otherwise — no ControlMode gate — calls
`general_executor(q=q, pose=goal_pose)`. -/
def namedPoseCb (env : GEEnv) (st : RobotState) (known : Bool)
    (q : JointVec) (goalPose : Pose3) (mt : ℚ) : HandlerRes :=
  if known = false then { motionAttempted := false, ge := none }
  else
    { motionAttempted := true
      ge := some (generalExecutor env st q (some goalPose) false false mt) }

/-- `ROSRobot.home_cb` (ROSRobot.py 889–924): no ControlMode gate — runs
`general_executor(q=qr, workspace_ignore=True)` first, and only *after*
the motion resets ERROR back to JOINTS, clearing `preempted`. -/
def homeCb (env : GEEnv) (st : RobotState) (qr : JointVec) (mt : ℚ) :
    HandlerRes × RobotState :=
  let r := generalExecutor env st qr none false true mt
  let st1 :=
    if r.state.mode = ControlMode.ERROR then
      { r.state with mode := ControlMode.JOINTS, preempted := false }
    else r.state
  ({ motionAttempted := true, ge := some r }, st1)

/-- **C2.** Evaluation at the failing input (`_controller_mode = ERROR`,
valid IK / known pose, permissive environment): the velocity, joint-
velocity and servo handlers refuse, but `pose_cb`, `joint_pose_cb`,
`named_pose_cb` and `home_cb` have no ERROR gate and proceed all the way
into the execution phase (`executorInstalled = true`), so in ERROR mode
they do command motion, contrary to the claim. -/
theorem error_mode_handlers_divergence :
    (velocityCb ⟨.ERROR, [0], true, false, 0⟩).motionAttempted = false ∧
      (jointVelocityCb ⟨.ERROR, [0], true, false, 0⟩ [1]).motionAttempted = false ∧
      (servoCb ⟨.ERROR, [0], true, false, 0⟩).motionAttempted = false ∧
      (poseCb ⟨.noPath, fun _ => 1, 0, fun _ _ => ⟨"t", [[0]]⟩, fun _ => true, true⟩
          ⟨.ERROR, [0], true, false, 0⟩ true [0] ⟨1, 0, 0, 0, 0, 0, 0⟩ 5).motionAttempted
        = true ∧
      (poseCb ⟨.noPath, fun _ => 1, 0, fun _ _ => ⟨"t", [[0]]⟩, fun _ => true, true⟩
          ⟨.ERROR, [0], true, false, 0⟩ true [0] ⟨1, 0, 0, 0, 0, 0, 0⟩ 5).ge
        = some { result := true, trajGenerated := true, executorInstalled := true,
                 state := ⟨.ERROR, [0], true, false, 1⟩ } ∧
      (jointPoseCb ⟨.noPath, fun _ => 1, 0, fun _ _ => ⟨"t", [[0]]⟩, fun _ => true, true⟩
          ⟨.ERROR, [0], true, false, 0⟩ [0] 5).motionAttempted = true ∧
      (namedPoseCb ⟨.noPath, fun _ => 1, 0, fun _ _ => ⟨"t", [[0]]⟩, fun _ => true, true⟩
          ⟨.ERROR, [0], true, false, 0⟩ true [0] ⟨1, 0, 0, 0, 0, 0, 0⟩ 5).motionAttempted
        = true ∧
      ((homeCb ⟨.noPath, fun _ => 1, 0, fun _ _ => ⟨"t", [[0]]⟩, fun _ => true, true⟩
          ⟨.ERROR, [0], true, false, 0⟩ [0] 5).1).motionAttempted = true := by
  refine ⟨rfl, rfl, rfl, rfl, ?_, rfl, rfl, rfl⟩
  simp [poseCb, generalExecutor, checkSingularity, poseWithinWorkspace,
    trajectoryCollisionChecker, stepValue, walkIdxs, walkLoop, Pose3.zero]

end Armer

namespace Armer

/-! ## Collision-object registry (claim C9)
(`ROSRobot.remove_collision_obj_cb`, ROSRobot.py 2018–2047) -/

/-- The dictionaries touched by the remove-collision-object service, with
shape payloads of an arbitrary type `α`: `collision_dict`,
`dynamic_collision_dict`, `dynamic_collision_removal_dict` and the
overlap graph `overlapped_link_dict`. -/
structure CollisionRegistry (α : Type) where
  collision_dict : List (String × α)
  dynamic_collision_dict : List (String × α)
  dynamic_collision_removal_dict : List (String × α)
  overlapped_link_dict : List (String × List String)
deriving Repr, DecidableEq

/-- `ROSRobot.remove_collision_obj_cb(req)` (ROSRobot.py 2018–2047).
`recharacterise` abstracts `characterise_collision_overlaps()` (the
overlap graph recomputed after a successful removal).  The returned
`Option Bool` is the service response: `some b` for
`RemoveCollisionObjectResponse(success=b)`, `none` for the Python
fall-through without a `return` on the unknown-key path (lines 2045–2047).
An empty name models `req.name in (None, '')`.  (A key present in
`collision_dict` but not in `dynamic_collision_dict` — a robot link —
would raise `KeyError` in Python; that path is outside this claim and the
lookup is modelled as popping nothing.) -/
def removeCollisionObjCb {α : Type}
    (recharacterise : CollisionRegistry α → List (String × List String))
    (name : String) (st : CollisionRegistry α) :
    Option Bool × CollisionRegistry α :=
  if name = "" then (some false, st)
  else if (st.collision_dict.map Prod.fst).contains name then
    let removed := st.dynamic_collision_dict.lookup name
    let st1 : CollisionRegistry α :=
      { collision_dict := st.collision_dict.filter (fun kv => kv.1 ≠ name)
        dynamic_collision_dict :=
          st.dynamic_collision_dict.filter (fun kv => kv.1 ≠ name)
        dynamic_collision_removal_dict :=
          (match removed with
            | some v => (name, v) :: st.dynamic_collision_removal_dict
            | none => st.dynamic_collision_removal_dict)
        overlapped_link_dict := st.overlapped_link_dict }
    let st2 := { st1 with overlapped_link_dict := recharacterise st1 }
    (some true, st2)
  else
    (none, st)

/-- **C9.** Evaluation at the failing input: removing the unknown key
`"ghost"` from a registry holding only `"table"` mutates no state — but
the service handler returns `None` (no response at all), not a failure
response with a reason: the unknown-key branch (ROSRobot.py 2045–2047)
only logs and falls through without a `return`, violating the handler's
own `-> RemoveCollisionObjectResponse` annotation. -/
theorem removeCollisionObj_unknown_key :
    removeCollisionObjCb (α := Unit) (fun st => st.overlapped_link_dict) "ghost"
        ⟨[("table", ())], [("table", ())], [], [("table", [])]⟩
      = (none, ⟨[("table", ())], [("table", ())], [], [("table", [])]⟩) := by
  rfl

end Armer

namespace Armer

/-! ## Nearest-neighbour collision candidate query (claim C8)
(`ROSRobot.query_kd_nn_collision_tree`, ROSRobot.py 2286–2330, and
`ROSRobot.closest_dist_query_pose_based`, ROSRobot.py 2112–2174) -/

/-- A 3-d translation (the `[:3, 3]` column of an SE3 matrix). -/
abbrev Vec3 := ℚ × ℚ × ℚ

/-- Squared Euclidean distance; the KD-tree's metric up to the monotone
square root. -/
def sqDist (a b : Vec3) : ℚ :=
  (a.1 - b.1) * (a.1 - b.1) + (a.2.1 - b.2.1) * (a.2.1 - b.2.1)
    + (a.2.2 - b.2.2) * (a.2.2 - b.2.2)

/-- The kinematic/scene data read by the query: `collision_dict` key order,
`link_dict` membership, per-key collision-data non-emptiness, the overlap
exclusion sets, `ets(start=origin, end=link)` translations (robot links),
first-shape world translations (`collision_dict[link][0].T[:3,3]`,
external objects) and `ets(start=base_link, end=link)` world translations. -/
structure NNEnv where
  colKeys : List String
  linkDict : List String
  colNonempty : String → Bool
  overlapped : String → List String
  relTrans : String → String → Vec3
  objWorld : String → Vec3
  linkWorld : String → Vec3

/-- `ROSRobot.closest_dist_query_pose_based(sliced_link_name)` with
`refine=False` (ROSRobot.py 2153–2174): robot links (in `link_dict`)
contribute their translation *relative to the origin link*, external
objects their translation *from the base link*; dict insertion order, with
`translation_dict.update(external_dict)` appending the external entries. -/
def translationEntries (env : NNEnv) (origin : String) :
    List (String × Vec3) :=
  (env.colKeys.filter (fun l =>
      env.linkDict.contains l && env.colNonempty l
        && !(env.overlapped origin).contains l && l != origin)).map
    (fun l => (l, env.relTrans origin l))
  ++ (env.colKeys.filter (fun l =>
      !env.linkDict.contains l && env.colNonempty l
        && !(env.overlapped origin).contains l && l != origin)).map
    (fun l => (l, env.objWorld l))

/-- Stable insertion used to model the KD-tree's sorted query output. -/
def insertLe {α : Type} (le : α → α → Bool) (a : α) : List α → List α
  | [] => [a]
  | b :: bs => if le a b then a :: b :: bs else b :: insertLe le a bs

/-- Stable sort by `le` (insertion sort). -/
def sortLe {α : Type} (le : α → α → Bool) (l : List α) : List α :=
  l.foldr (insertLe le) []

/-- `sklearn.neighbors.KDTree.query(X=[target], k, ...)`: the indices of
the `k` points nearest to `target`, ascending by distance (sklearn sorts
its results; ties here resolve by index). -/
def kdQuery (pts : List Vec3) (target : Vec3) (k : Nat) : List Nat :=
  (sortLe (fun i j =>
      decide (sqDist (pts.getD i (0, 0, 0)) target
        ≤ sqDist (pts.getD j (0, 0, 0)) target))
    (List.range pts.length)).take k

/-- `ROSRobot.query_kd_nn_collision_tree(sliced_links, dim=4)`
(ROSRobot.py 2286–2330): for each sliced link present in `link_dict`,
build the translation dictionary, query the KD-tree over its values at
the *origin link's world position* with
`k = min(#entries, dim)`, and map the returned indices back to keys. -/
def queryKdNnCollisionTree (env : NNEnv) (slicedLinks : List String)
    (dim : Nat) : List (List String) :=
  if slicedLinks = [] then []
  else
    slicedLinks.foldr
      (fun sl acc =>
        if !env.linkDict.contains sl then acc
        else
          let entries := translationEntries env sl
          let k := if entries.length < dim then entries.length else dim
          let idxs := kdQuery (entries.map Prod.snd) (env.linkWorld sl) k
          (idxs.map (fun i => (entries.map Prod.fst).getD i "")) :: acc)
      []

/-- **C8.** Evaluation at the failing input.  Origin link `ee` at world
position `(10,0,0)`; robot links `A` (world `(11,0,0)`, so world distance²
`1`) and `B` (world `(13,0,0)`, distance² `9`), both eligible.  The query
stores the *origin-relative* translations `A ↦ (1,0,0)`, `B ↦ (3,0,0)`
(ROSRobot.py 2155) but queries the tree at the origin's *world* position
`(10,0,0)` (ROSRobot.py 2323), so it measures `81` for `A` and `49` for
`B` and returns `[B, A]` — not the eligible links ordered by ascending
distance from the origin's world position, which is `[A, B]`. -/
theorem queryKdNn_frame_mismatch :
    (queryKdNnCollisionTree
        { colKeys := ["A", "B"]
          linkDict := ["ee", "A", "B"]
          colNonempty := fun _ => true
          overlapped := fun _ => []
          relTrans := fun _ l => if l = "A" then (1, 0, 0) else (3, 0, 0)
          objWorld := fun _ => (0, 0, 0)
          linkWorld := fun l =>
            if l = "ee" then (10, 0, 0)
            else if l = "A" then (11, 0, 0) else (13, 0, 0) }
        ["ee"] 4
      = [["B", "A"]]) ∧
      sqDist (11, 0, 0) (10, 0, 0) < sqDist (13, 0, 0) (10, 0, 0) := by
  constructor
  · simp [queryKdNnCollisionTree, translationEntries, kdQuery, sortLe,
      insertLe, sqDist, List.range, List.range.loop]
    norm_num
  · norm_num [sqDist]

end Armer
